import Mathlib

/-!
Verification of the query-response cache and response-generation pipeline of a
small Flask chatbot (`src/main.py`).  The pipeline `generate_response_with_gemini`
looks up an in-memory cache keyed by the f-string `f"{user_query}_{language}"`,
builds a prompt embedding the whole knowledge base via `json.dumps(kb, indent=2)`,
calls the LLM provider (exceptions replaced by a fixed fallback text), optionally
calls the translation provider (exceptions swallowed, keeping the English text),
stores the final text in the cache and returns it.  The HTTP handler `chat`
extracts the form fields, rejects empty/absent queries with a fixed message, and
otherwise wraps the pipeline result in a one-field JSON object with status 200.

External providers are modelled as oracles: the LLM is a function
`String → Option String` from the prompt to its text (`none` = the call raised),
and the translator is `String → String → Option String` from (target language,
text) to the translation (`none` = the call raised).  Each pipeline result
records the list of prompts sent to the LLM and the list of translation requests
made, so that "the provider is not invoked" is a statable property.
-/

namespace ChatBot

/-- JSON-like values, as produced by Python's `json.load`: the knowledge base is
an arbitrary nested structure of objects, arrays, strings, integers, booleans
and null.  Object fields keep insertion order, as Python dicts do. -/
inductive Json where
  | null : Json
  | bool : Bool → Json
  | num : Int → Json
  | str : String → Json
  | arr : List Json → Json
  | obj : List (String × Json) → Json

/-- One hexadecimal digit, lowercase, as CPython's `json` encoder prints them. -/
def hexDigit (n : Nat) : Char :=
  if n < 10 then Char.ofNat (48 + n) else Char.ofNat (87 + n)

/-- Four-digit lowercase hexadecimal rendering used in `\uXXXX` escapes. -/
def hex4 (n : Nat) : String :=
  String.mk [hexDigit (n / 4096 % 16), hexDigit (n / 256 % 16),
             hexDigit (n / 16 % 16), hexDigit (n % 16)]

/-- Escaping of a single character inside a JSON string literal, following
CPython's `json.dumps` with the default `ensure_ascii=True`: the two-character
escapes for quote, backslash and the usual control characters, `\uXXXX` for the
other characters outside `0x20..0x7e`, and a surrogate pair above `0xffff`. -/
def jsonEscapeChar (c : Char) : String :=
  if c = '"' then "\\\""
  else if c = '\\' then "\\\\"
  else if c = '\n' then "\\n"
  else if c = '\r' then "\\r"
  else if c = '\t' then "\\t"
  else if c = Char.ofNat 8 then "\\b"
  else if c = Char.ofNat 12 then "\\f"
  else if c.toNat < 32 then "\\u" ++ hex4 c.toNat
  else if c.toNat < 127 then String.mk [c]
  else if c.toNat ≤ 65535 then "\\u" ++ hex4 c.toNat
  else
    let n := c.toNat - 65536
    "\\u" ++ hex4 (55296 + n / 1024) ++ "\\u" ++ hex4 (56320 + n % 1024)

/-- A JSON string literal: quotes around the escaped characters. -/
def jsonQuote (s : String) : String :=
  "\"" ++ String.join (s.data.map jsonEscapeChar) ++ "\""

/-- The indentation in front of an element at nesting level `lvl` when dumping
with `indent=2`: `2 * lvl` spaces. -/
def indentStr (lvl : Nat) : String :=
  String.mk (List.replicate (2 * lvl) ' ')

mutual

/-- `json.dumps(v, indent=2)` at nesting level `lvl`: Python's pretty-printed
rendering with two-space indentation, `", "`-free item separators (a comma,
a newline and the next item's indentation) and `": "` between key and value. -/
def jsonDumps : Json → Nat → String
  | .null, _ => "null"
  | .bool b, _ => if b then "true" else "false"
  | .num n, _ => toString n
  | .str s, _ => jsonQuote s
  | .arr [], _ => "[]"
  | .arr (x :: xs), lvl =>
      "[\n" ++ indentStr (lvl + 1) ++ jsonDumps x (lvl + 1) ++
        jsonDumpsArrRest xs (lvl + 1) ++ "\n" ++ indentStr lvl ++ "]"
  | .obj [], _ => "\x7b\x7d"
  | .obj (p :: ps), lvl =>
      "\x7b\n" ++ indentStr (lvl + 1) ++ jsonQuote p.1 ++ ": " ++
        jsonDumps p.2 (lvl + 1) ++ jsonDumpsObjRest ps (lvl + 1) ++
        "\n" ++ indentStr lvl ++ "\x7d"

/-- The remaining elements of a JSON array after the first, each preceded by
a comma, a newline and its indentation. -/
def jsonDumpsArrRest : List Json → Nat → String
  | [], _ => ""
  | x :: xs, lvl =>
      ",\n" ++ indentStr lvl ++ jsonDumps x lvl ++ jsonDumpsArrRest xs lvl

/-- The remaining fields of a JSON object after the first, each preceded by
a comma, a newline and its indentation. -/
def jsonDumpsObjRest : List (String × Json) → Nat → String
  | [], _ => ""
  | p :: ps, lvl =>
      ",\n" ++ indentStr lvl ++ jsonQuote p.1 ++ ": " ++ jsonDumps p.2 lvl ++
        jsonDumpsObjRest ps lvl

end

/-- The in-memory response cache `response_cache`: a Python dict from cache key
to response text, modelled as an association list with unique keys. -/
abbrev Cache : Type := List (String × String)

/-- `cache_key in response_cache` / `response_cache[cache_key]`: the value
stored under a key, if any. -/
def cacheLookup : Cache → String → Option String
  | [], _ => none
  | (k, v) :: rest, key => if k = key then some v else cacheLookup rest key

/-- `response_cache[cache_key] = value`: dict assignment, replacing the entry
for the key when present and appending it otherwise. -/
def cachePut : Cache → String → String → Cache
  | [], key, value => [(key, value)]
  | (k, v) :: rest, key, value =>
      if k = key then (key, value) :: rest else (k, v) :: cachePut rest key value

/-- The fixed apology text substituted when the LLM provider call raises. -/
def fallbackText : String :=
  "Sorry, I'm having trouble connecting to my brain right now. Please try again later."

/-- The fixed message returned by the handler when the query is empty/absent. -/
def promptUserText : String := "Please enter a question."

/-- The prompt f-string of `generate_response_with_gemini`: the triple-quoted
literal with its leading newline and four-space line indentation, the knowledge
base serialized by `json.dumps(knowledge_base, indent=2)` and the verbatim user
query interpolated at their placeholders. -/
def buildPrompt (knowledge_base : Json) (user_query : String) : String :=
  "\n    You are a helpful University support chatbot. Your task is to answer user queries based ONLY on the following knowledge base.\n    If the answer is not in the knowledge base, politely say that you don't have that information. Do not make up answers.\n\n    Knowledge Base:\n    "
    ++ jsonDumps knowledge_base 0
    ++ "\n\n    User Query: " ++ user_query ++ "\n    "

/-- Result of one run of the pipeline: the returned text, the cache afterwards,
and the logs of provider invocations (prompts sent to the LLM; (target
language, source text) pairs sent to the translator). -/
structure GenResult where
  response : String
  response_cache : Cache
  llmPrompts : List String
  trRequests : List (String × String)

/-- The pipeline `generate_response_with_gemini(user_query, language)`:
cache lookup under `f"{user_query}_{language}"`, returning the cached text on a
hit; otherwise prompt build, LLM call with the fixed fallback substituted when
the call raises (`try/except` modelled by `Option.getD`), translation when
`language != "en"` (keeping the untranslated text when the translation call
raises), cache store of the final text, return. -/
def generate_response_with_gemini (llm : String → Option String)
    (translator : String → String → Option String)
    (knowledge_base : Json) (response_cache : Cache)
    (user_query : String) (language : String) : GenResult :=
  let cache_key := user_query ++ "_" ++ language
  match cacheLookup response_cache cache_key with
  | some cached => ⟨cached, response_cache, [], []⟩
  | none =>
      let prompt := buildPrompt knowledge_base user_query
      let response_content := (llm prompt).getD fallbackText
      let translated :=
        if language ≠ "en" then
          match translator language response_content with
          | some t => (t, [(language, response_content)])
          | none => (response_content, [(language, response_content)])
        else (response_content, [])
      ⟨translated.1, cachePut response_cache cache_key translated.1,
        [prompt], translated.2⟩

/-- The text held by `response_content` after the LLM try/except and before the
translation step: the LLM's output on the built prompt, or the fixed fallback
when the call raised. -/
def llmText (llm : String → Option String) (knowledge_base : Json)
    (user_query : String) : String :=
  (llm (buildPrompt knowledge_base user_query)).getD fallbackText

/-- Result of one request to the `/chat` handler: HTTP status, JSON body, cache
afterwards, and the provider invocation logs of the underlying pipeline run. -/
structure ChatOutcome where
  status : Nat
  body : Json
  response_cache : Cache
  llmPrompts : List String
  trRequests : List (String × String)

/-- The `/chat` handler: reads the form fields `user_query` (no default: absent
gives `None`) and `language` (default `"en"` when absent), returns the fixed
prompt-the-user message when the query is falsy (absent or empty) without
touching the cache or the providers, and otherwise wraps the pipeline's text in
`jsonify({"response": ...})`.  `jsonify` always answers with status 200. -/
def chat (llm : String → Option String)
    (translator : String → String → Option String)
    (knowledge_base : Json) (response_cache : Cache)
    (user_query : Option String) (language_field : Option String) : ChatOutcome :=
  let language := language_field.getD "en"
  match user_query with
  | none =>
      ⟨200, Json.obj [("response", Json.str promptUserText)], response_cache, [], []⟩
  | some q =>
      if q = "" then
        ⟨200, Json.obj [("response", Json.str promptUserText)], response_cache, [], []⟩
      else
        let r := generate_response_with_gemini llm translator knowledge_base
          response_cache q language
        ⟨200, Json.obj [("response", Json.str r.response)], r.response_cache,
          r.llmPrompts, r.trRequests⟩

/-- Outcome of trying to read and parse `knowledge_base.json` at startup:
success with the parsed value, `FileNotFoundError`, or any other exception
(for instance a `PermissionError` for an unreadable file, or a
`JSONDecodeError`). -/
inductive KnowledgeReadOutcome where
  | ok : Json → KnowledgeReadOutcome
  | fileNotFound : KnowledgeReadOutcome
  | otherError : KnowledgeReadOutcome

/-- The startup `try/except FileNotFoundError` around
`json.load(open("knowledge_base.json"))`: a successful read yields the parsed
value, a missing file is caught and replaced by the empty dict `{}` (with a
printed warning), and every other exception propagates, aborting startup
(`Except.error`). -/
def loadKnowledgeBase : KnowledgeReadOutcome → Except Unit Json
  | .ok j => .ok j
  | .fileNotFound => .ok (Json.obj [])
  | .otherError => .error ()

/-- A mock LLM provider that always succeeds with a fixed text. -/
def constLlm (s : String) : String → Option String := fun _ => some s

/-- A mock LLM provider whose every call raises. -/
def failLlm : String → Option String := fun _ => none

/-- A mock translation provider that always succeeds with a fixed text. -/
def constTr (s : String) : String → String → Option String := fun _ _ => some s

/-- A mock translation provider whose every call raises. -/
def failTr : String → String → Option String := fun _ _ => none

/-! ## Basic cache lemmas -/

/-- After a dict assignment, the assigned key holds the assigned value. -/
theorem cacheLookup_cachePut_self (c : Cache) (key value : String) :
    cacheLookup (cachePut c key value) key = some value := by
  induction c with
  | nil => simp [cachePut, cacheLookup]
  | cons p rest ih =>
      obtain ⟨k, v⟩ := p
      by_cases h : k = key <;> simp [cachePut, cacheLookup, h, ih]

/-- On a cache hit the pipeline returns the cached text at once: the cache is
unchanged and no provider is invoked. -/
theorem generate_cache_hit (llm : String → Option String)
    (translator : String → String → Option String) (kb : Json) (c : Cache)
    (q l v : String) (h : cacheLookup c (q ++ "_" ++ l) = some v) :
    generate_response_with_gemini llm translator kb c q l = ⟨v, c, [], []⟩ := by
  simp only [generate_response_with_gemini, h]

/-- After any pipeline run, the cache holds the returned text under the run's
cache key — both on a hit (the key was already there) and on a miss (the final
text was just stored). -/
theorem generate_caches_response (llm : String → Option String)
    (translator : String → String → Option String) (kb : Json) (c : Cache)
    (q l : String) :
    cacheLookup (generate_response_with_gemini llm translator kb c q l).response_cache
        (q ++ "_" ++ l)
      = some (generate_response_with_gemini llm translator kb c q l).response := by
  cases h : cacheLookup c (q ++ "_" ++ l) with
  | some v => rw [generate_cache_hit llm translator kb c q l v h]; exact h
  | none =>
      simp only [generate_response_with_gemini, h]
      exact cacheLookup_cachePut_self ..

/-! ## Claims -/

/-- C1: for every non-empty query `q` and language `l`, running the pipeline
twice with the same `(q, l)` returns identical text both times; the first run
leaves its returned text (a genuine answer or a cached fallback) in the cache
under the key for `(q, l)`, the second run returns exactly that cached value,
and the second run invokes neither the LLM provider nor the translator. -/
theorem answer_twice_cached (llm : String → Option String)
    (translator : String → String → Option String) (kb : Json) (c : Cache)
    (q l : String) (hq : q ≠ "") :
    (generate_response_with_gemini llm translator kb
        (generate_response_with_gemini llm translator kb c q l).response_cache q l).response
      = (generate_response_with_gemini llm translator kb c q l).response ∧
    cacheLookup (generate_response_with_gemini llm translator kb c q l).response_cache
        (q ++ "_" ++ l)
      = some (generate_response_with_gemini llm translator kb c q l).response ∧
    (generate_response_with_gemini llm translator kb
        (generate_response_with_gemini llm translator kb c q l).response_cache q l).llmPrompts
      = [] ∧
    (generate_response_with_gemini llm translator kb
        (generate_response_with_gemini llm translator kb c q l).response_cache q l).trRequests
      = [] := by
  have hcache := generate_caches_response llm translator kb c q l
  rw [generate_cache_hit llm translator kb _ q l _ hcache]
  exact ⟨rfl, hcache, rfl, rfl⟩

theorem answer_twice_cached_witness :
    ("hi" : String) ≠ "" ∧
    ((generate_response_with_gemini (constLlm "A") failTr (Json.obj [])
        (generate_response_with_gemini (constLlm "A") failTr (Json.obj []) [] "hi" "en").response_cache
        "hi" "en").response
      = (generate_response_with_gemini (constLlm "A") failTr (Json.obj []) [] "hi" "en").response ∧
    cacheLookup (generate_response_with_gemini (constLlm "A") failTr (Json.obj [])
        [] "hi" "en").response_cache ("hi" ++ "_" ++ "en")
      = some (generate_response_with_gemini (constLlm "A") failTr (Json.obj []) [] "hi" "en").response ∧
    (generate_response_with_gemini (constLlm "A") failTr (Json.obj [])
        (generate_response_with_gemini (constLlm "A") failTr (Json.obj []) [] "hi" "en").response_cache
        "hi" "en").llmPrompts = [] ∧
    (generate_response_with_gemini (constLlm "A") failTr (Json.obj [])
        (generate_response_with_gemini (constLlm "A") failTr (Json.obj []) [] "hi" "en").response_cache
        "hi" "en").trRequests = []) :=
  ⟨by decide,
   answer_twice_cached (constLlm "A") failTr (Json.obj []) [] "hi" "en" (by decide)⟩

/-- C2: with an empty or absent `user_query` form field, the handler returns
the fixed prompt-the-user message for every language field, the cache is left
exactly as it was (in particular nothing is stored), and neither the LLM
provider nor the translator is invoked. -/
theorem chat_empty_query (llm : String → Option String)
    (translator : String → String → Option String) (kb : Json) (c : Cache)
    (language_field : Option String) (user_query : Option String)
    (h : user_query = none ∨ user_query = some "") :
    (chat llm translator kb c user_query language_field).body
        = Json.obj [("response", Json.str promptUserText)] ∧
    (chat llm translator kb c user_query language_field).response_cache = c ∧
    (chat llm translator kb c user_query language_field).llmPrompts = [] ∧
    (chat llm translator kb c user_query language_field).trRequests = [] := by
  rcases h with h | h <;> subst h <;> simp [chat]

theorem chat_empty_query_witness :
    ((some "" : Option String) = none ∨ (some "" : Option String) = some "") ∧
    ((chat (constLlm "A") failTr (Json.obj []) [] (some "") (some "fr")).body
        = Json.obj [("response", Json.str promptUserText)] ∧
    (chat (constLlm "A") failTr (Json.obj []) [] (some "") (some "fr")).response_cache = [] ∧
    (chat (constLlm "A") failTr (Json.obj []) [] (some "") (some "fr")).llmPrompts = [] ∧
    (chat (constLlm "A") failTr (Json.obj []) [] (some "") (some "fr")).trRequests = []) :=
  ⟨Or.inr rfl,
   chat_empty_query (constLlm "A") failTr (Json.obj []) [] (some "fr") (some "") (Or.inr rfl)⟩

/-- C3 (counterexample to the claim as stated): with a failing LLM provider, a
non-empty query and a language other than `"en"`, a successful translation call
translates the fallback, so the returned text is the translator's output for
the fallback and not the fixed fallback text itself. -/
theorem llm_failure_translated_counterexample :
    (generate_response_with_gemini failLlm (constTr "Lo siento") (Json.obj [])
        [] "q" "es").response ≠ fallbackText := by decide

/-- C3 (amended): for every non-empty query `q` and language `l`, on a cache
miss with a failing LLM provider call, the pipeline substitutes the fixed
apology/fallback text instead of propagating the error; the returned text is
exactly that fallback when `l` is `"en"` or the translation call fails, and the
translation of the fallback when `l ≠ "en"` and translation succeeds; in every
case the returned text is what gets stored in the cache under the key for
`(q, l)`. -/
theorem llm_failure_fallback (llm : String → Option String)
    (translator : String → String → Option String) (kb : Json) (c : Cache)
    (q l : String) (hq : q ≠ "")
    (hfail : llm (buildPrompt kb q) = none)
    (hmiss : cacheLookup c (q ++ "_" ++ l) = none) :
    ((l = "en" ∨ translator l fallbackText = none) →
      (generate_response_with_gemini llm translator kb c q l).response = fallbackText) ∧
    (∀ t, l ≠ "en" → translator l fallbackText = some t →
      (generate_response_with_gemini llm translator kb c q l).response = t) ∧
    cacheLookup (generate_response_with_gemini llm translator kb c q l).response_cache
        (q ++ "_" ++ l)
      = some (generate_response_with_gemini llm translator kb c q l).response := by
  refine ⟨?_, ?_, generate_caches_response llm translator kb c q l⟩
  · rintro (he | htf)
    · subst he
      simp [generate_response_with_gemini, hmiss, hfail]
    · by_cases he : l = "en"
      · subst he
        simp [generate_response_with_gemini, hmiss, hfail]
      · simp [generate_response_with_gemini, hmiss, hfail, he, htf]
  · intro t hne htr
    simp [generate_response_with_gemini, hmiss, hfail, hne, htr]

theorem llm_failure_fallback_witness :
    ("q" : String) ≠ "" ∧
    failLlm (buildPrompt (Json.obj []) "q") = none ∧
    cacheLookup ([] : Cache) ("q" ++ "_" ++ "es") = none ∧
    (((("es" : String) = "en") ∨ failTr "es" fallbackText = none) →
      (generate_response_with_gemini failLlm failTr (Json.obj []) [] "q" "es").response
        = fallbackText) ∧
    (∀ t, ("es" : String) ≠ "en" → failTr "es" fallbackText = some t →
      (generate_response_with_gemini failLlm failTr (Json.obj []) [] "q" "es").response = t) ∧
    cacheLookup (generate_response_with_gemini failLlm failTr (Json.obj [])
        [] "q" "es").response_cache ("q" ++ "_" ++ "es")
      = some (generate_response_with_gemini failLlm failTr (Json.obj []) [] "q" "es").response :=
  ⟨by decide, rfl, rfl,
   llm_failure_fallback failLlm failTr (Json.obj []) [] "q" "es" (by decide) rfl rfl⟩

/-- C4: the concatenated cache key is collision-prone: the two distinct
(query, language) pairs `("a_b", "c")` and `("a", "b_c")` derive the same cache
key, so after answering the first pair, a call with the second pair returns the
first pair's cached response and invokes neither the LLM provider nor the
translator. -/
theorem cache_key_collision :
    (("a_b", "c") : String × String) ≠ ("a", "b_c") ∧
    (generate_response_with_gemini (constLlm "R1") failTr (Json.obj [])
        (generate_response_with_gemini (constLlm "R1") failTr (Json.obj [])
          [] "a_b" "c").response_cache
        "a" "b_c").response
      = (generate_response_with_gemini (constLlm "R1") failTr (Json.obj [])
          [] "a_b" "c").response ∧
    (generate_response_with_gemini (constLlm "R1") failTr (Json.obj [])
        (generate_response_with_gemini (constLlm "R1") failTr (Json.obj [])
          [] "a_b" "c").response_cache
        "a" "b_c").llmPrompts = [] ∧
    (generate_response_with_gemini (constLlm "R1") failTr (Json.obj [])
        (generate_response_with_gemini (constLlm "R1") failTr (Json.obj [])
          [] "a_b" "c").response_cache
        "a" "b_c").trRequests = [] := by decide

/-- C5: for every non-empty query `q` and language `l ≠ "en"`, on a cache miss
the pipeline returns exactly the translation provider's output for the
pre-translation text when the translation call succeeds, and the
pre-translation (English) text when the translation call fails; in both cases
the returned text is what gets stored in the cache under the key for
`(q, l)`. -/
theorem translation_result (llm : String → Option String)
    (translator : String → String → Option String) (kb : Json) (c : Cache)
    (q l : String) (hq : q ≠ "") (hl : l ≠ "en")
    (hmiss : cacheLookup c (q ++ "_" ++ l) = none) :
    (∀ t, translator l (llmText llm kb q) = some t →
      (generate_response_with_gemini llm translator kb c q l).response = t) ∧
    (translator l (llmText llm kb q) = none →
      (generate_response_with_gemini llm translator kb c q l).response = llmText llm kb q) ∧
    cacheLookup (generate_response_with_gemini llm translator kb c q l).response_cache
        (q ++ "_" ++ l)
      = some (generate_response_with_gemini llm translator kb c q l).response := by
  refine ⟨?_, ?_, generate_caches_response llm translator kb c q l⟩
  · intro t htr
    simp only [llmText] at htr
    simp [generate_response_with_gemini, hmiss, hl, htr]
  · intro htr
    simp only [llmText] at htr
    simp [generate_response_with_gemini, llmText, hmiss, hl, htr]

theorem translation_result_witness :
    ("q" : String) ≠ "" ∧ ("es" : String) ≠ "en" ∧
    cacheLookup ([] : Cache) ("q" ++ "_" ++ "es") = none ∧
    ((∀ t, constTr "Hola" "es" (llmText (constLlm "Hi") (Json.obj []) "q") = some t →
      (generate_response_with_gemini (constLlm "Hi") (constTr "Hola") (Json.obj [])
          [] "q" "es").response = t) ∧
    (constTr "Hola" "es" (llmText (constLlm "Hi") (Json.obj []) "q") = none →
      (generate_response_with_gemini (constLlm "Hi") (constTr "Hola") (Json.obj [])
          [] "q" "es").response = llmText (constLlm "Hi") (Json.obj []) "q") ∧
    cacheLookup (generate_response_with_gemini (constLlm "Hi") (constTr "Hola") (Json.obj [])
        [] "q" "es").response_cache ("q" ++ "_" ++ "es")
      = some (generate_response_with_gemini (constLlm "Hi") (constTr "Hola") (Json.obj [])
          [] "q" "es").response) :=
  ⟨by decide, by decide, rfl,
   translation_result (constLlm "Hi") (constTr "Hola") (Json.obj []) [] "q" "es"
     (by decide) (by decide) rfl⟩

/-- C6: for every non-empty query `q`, when the language is `"en"` the
translation provider is never invoked — on a cache hit or a miss, with the LLM
succeeding or failing — and on a cache miss the pipeline returns the LLM's text
(or the fixed fallback when the LLM call failed) unmodified. -/
theorem english_no_translation (llm : String → Option String)
    (translator : String → String → Option String) (kb : Json) (c : Cache)
    (q : String) (hq : q ≠ "") :
    (generate_response_with_gemini llm translator kb c q "en").trRequests = [] ∧
    (cacheLookup c (q ++ "_" ++ "en") = none →
      (generate_response_with_gemini llm translator kb c q "en").response
        = llmText llm kb q) := by
  constructor
  · cases h : cacheLookup c (q ++ "_" ++ "en") with
    | some v => rw [generate_cache_hit llm translator kb c q "en" v h]
    | none => simp [generate_response_with_gemini, h]
  · intro h
    simp [generate_response_with_gemini, llmText, h]

theorem english_no_translation_witness :
    ("hi" : String) ≠ "" ∧
    ((generate_response_with_gemini failLlm (constTr "Lo") (Json.obj [])
        [] "hi" "en").trRequests = [] ∧
    (cacheLookup ([] : Cache) ("hi" ++ "_" ++ "en") = none →
      (generate_response_with_gemini failLlm (constTr "Lo") (Json.obj [])
          [] "hi" "en").response = llmText failLlm (Json.obj []) "hi")) :=
  ⟨by decide,
   english_no_translation failLlm (constTr "Lo") (Json.obj []) [] "hi" (by decide)⟩

set_option maxRecDepth 8192 in
/-- C7: the prompt builder is a deterministic function of the query and the
knowledge structure whose single output string contains the fixed role/persona
preamble, the answer-only-from-knowledge instruction, the deterministic
`json.dumps(·, indent=2)` serialization of the entire knowledge structure, and
the user query verbatim. -/
theorem prompt_builder_spec (kb : Json) (q : String) :
    (∃ a b, buildPrompt kb q
      = a ++ "You are a helpful University support chatbot. Your task is to answer user queries based ONLY on the following knowledge base." ++ b) ∧
    (∃ a b, buildPrompt kb q
      = a ++ "If the answer is not in the knowledge base, politely say that you don't have that information. Do not make up answers." ++ b) ∧
    (∃ a b, buildPrompt kb q = a ++ jsonDumps kb 0 ++ b) ∧
    (∃ a, buildPrompt kb q = a ++ "User Query: " ++ q ++ "\n    ") := by
  have h1 : ("\n    You are a helpful University support chatbot. Your task is to answer user queries based ONLY on the following knowledge base.\n    If the answer is not in the knowledge base, politely say that you don't have that information. Do not make up answers.\n\n    Knowledge Base:\n    " : String)
      = "\n    "
        ++ "You are a helpful University support chatbot. Your task is to answer user queries based ONLY on the following knowledge base."
        ++ "\n    If the answer is not in the knowledge base, politely say that you don't have that information. Do not make up answers.\n\n    Knowledge Base:\n    " := by
    rfl
  have h2 : ("\n    You are a helpful University support chatbot. Your task is to answer user queries based ONLY on the following knowledge base.\n    If the answer is not in the knowledge base, politely say that you don't have that information. Do not make up answers.\n\n    Knowledge Base:\n    " : String)
      = "\n    You are a helpful University support chatbot. Your task is to answer user queries based ONLY on the following knowledge base.\n    "
        ++ "If the answer is not in the knowledge base, politely say that you don't have that information. Do not make up answers."
        ++ "\n\n    Knowledge Base:\n    " := by
    rfl
  have h4 : ("\n\n    User Query: " : String) = "\n\n    " ++ "User Query: " := by rfl
  unfold buildPrompt
  refine ⟨⟨"\n    ",
      "\n    If the answer is not in the knowledge base, politely say that you don't have that information. Do not make up answers.\n\n    Knowledge Base:\n    "
        ++ jsonDumps kb 0 ++ "\n\n    User Query: " ++ q ++ "\n    ", ?_⟩,
    ⟨"\n    You are a helpful University support chatbot. Your task is to answer user queries based ONLY on the following knowledge base.\n    ",
      "\n\n    Knowledge Base:\n    "
        ++ jsonDumps kb 0 ++ "\n\n    User Query: " ++ q ++ "\n    ", ?_⟩,
    ⟨"\n    You are a helpful University support chatbot. Your task is to answer user queries based ONLY on the following knowledge base.\n    If the answer is not in the knowledge base, politely say that you don't have that information. Do not make up answers.\n\n    Knowledge Base:\n    ",
      "\n\n    User Query: " ++ q ++ "\n    ", ?_⟩,
    ⟨"\n    You are a helpful University support chatbot. Your task is to answer user queries based ONLY on the following knowledge base.\n    If the answer is not in the knowledge base, politely say that you don't have that information. Do not make up answers.\n\n    Knowledge Base:\n    "
        ++ jsonDumps kb 0 ++ "\n\n    ", ?_⟩⟩
  · rw [h1]; simp only [String.append_assoc]
  · rw [h2]; simp only [String.append_assoc]
  · simp only [String.append_assoc]
  · rw [h4]; simp only [String.append_assoc]

/-- C8 (counterexample to the claim as stated): only `FileNotFoundError` is
caught at startup; an unreadable knowledge file (e.g. a `PermissionError`, or
a malformed file's `JSONDecodeError`) propagates, so loading IS fatal there
instead of degrading to an empty knowledge structure. -/
theorem unreadable_knowledge_fatal :
    loadKnowledgeBase KnowledgeReadOutcome.otherError = Except.error () := rfl

/-- C8 (amended): a MISSING knowledge file (`FileNotFoundError`) is not fatal:
the knowledge store becomes the empty structure (with a warning printed), and
on a cache miss the pipeline still runs and still calls the LLM with the
empty-knowledge prompt, whose serialized knowledge section is the empty object
`{}`; an unreadable file, by contrast, aborts startup. -/
theorem missing_knowledge_degrades (llm : String → Option String)
    (translator : String → String → Option String) (c : Cache) (q l : String)
    (hmiss : cacheLookup c (q ++ "_" ++ l) = none) :
    loadKnowledgeBase KnowledgeReadOutcome.fileNotFound = Except.ok (Json.obj []) ∧
    (generate_response_with_gemini llm translator (Json.obj []) c q l).llmPrompts
      = [buildPrompt (Json.obj []) q] ∧
    (∃ a b, buildPrompt (Json.obj []) q = a ++ "\x7b\x7d" ++ b) := by
  refine ⟨rfl, ?_, ?_⟩
  · simp [generate_response_with_gemini, hmiss]
  · refine ⟨"\n    You are a helpful University support chatbot. Your task is to answer user queries based ONLY on the following knowledge base.\n    If the answer is not in the knowledge base, politely say that you don't have that information. Do not make up answers.\n\n    Knowledge Base:\n    ",
      "\n\n    User Query: " ++ q ++ "\n    ", ?_⟩
    unfold buildPrompt
    rw [show jsonDumps (Json.obj []) 0 = ("\x7b\x7d" : String) from rfl]
    simp only [String.append_assoc]

theorem missing_knowledge_degrades_witness :
    cacheLookup ([] : Cache) ("q" ++ "_" ++ "en") = none ∧
    (loadKnowledgeBase KnowledgeReadOutcome.fileNotFound = Except.ok (Json.obj []) ∧
    (generate_response_with_gemini (constLlm "A") failTr (Json.obj [])
        [] "q" "en").llmPrompts = [buildPrompt (Json.obj []) "q"] ∧
    (∃ a b, buildPrompt (Json.obj []) "q" = a ++ "\x7b\x7d" ++ b)) :=
  ⟨rfl, missing_knowledge_degrades (constLlm "A") failTr [] "q" "en" rfl⟩

/-- C9: the chat handler never surfaces an error as a non-2xx status: on every
input (empty query, cache hit, LLM failure, translation failure, success) it
returns status 200 with a JSON body that is an object with the single string
field `response`. -/
theorem chat_always_ok (llm : String → Option String)
    (translator : String → String → Option String) (kb : Json) (c : Cache)
    (user_query : Option String) (language_field : Option String) :
    (chat llm translator kb c user_query language_field).status = 200 ∧
    ∃ s, (chat llm translator kb c user_query language_field).body
      = Json.obj [("response", Json.str s)] := by
  cases user_query with
  | none => exact ⟨rfl, promptUserText, rfl⟩
  | some q =>
      by_cases h : q = ""
      · subst h
        exact ⟨rfl, promptUserText, rfl⟩
      · constructor
        · simp [chat, h]
        · exact ⟨(generate_response_with_gemini llm translator kb c q
              (language_field.getD "en")).response, by simp [chat, h]⟩

/-- C10: when the `language` form field is present but equal to the empty
string, the handler passes `""` (not the default `"en"`) to the pipeline: on a
cache miss the translation step is attempted with the empty target code, and
when that translation call fails the English text is returned to the caller
and cached under `q ++ "_"`, the query followed by a trailing underscore. -/
theorem empty_language_field (llm : String → Option String)
    (translator : String → String → Option String) (kb : Json) (c : Cache)
    (q : String) (hq : q ≠ "")
    (hmiss : cacheLookup c (q ++ "_") = none) :
    (chat llm translator kb c (some q) (some "")).trRequests
      = [("", llmText llm kb q)] ∧
    (translator "" (llmText llm kb q) = none →
      (chat llm translator kb c (some q) (some "")).body
          = Json.obj [("response", Json.str (llmText llm kb q))] ∧
      cacheLookup (chat llm translator kb c (some q) (some "")).response_cache (q ++ "_")
        = some (llmText llm kb q)) := by
  have hne : ("" : String) ≠ "en" := by decide
  constructor
  · cases h : translator "" ((llm (buildPrompt kb q)).getD fallbackText) with
    | some t => simp [chat, hq, generate_response_with_gemini, hmiss, hne, h, llmText]
    | none => simp [chat, hq, generate_response_with_gemini, hmiss, hne, h, llmText]
  · intro htr
    simp only [llmText] at htr
    constructor
    · simp [chat, hq, generate_response_with_gemini, hmiss, hne, htr, llmText]
    · simp [chat, hq, generate_response_with_gemini, hmiss, hne, htr, llmText,
        cacheLookup_cachePut_self]

theorem empty_language_field_witness :
    ("q" : String) ≠ "" ∧
    cacheLookup ([] : Cache) ("q" ++ "_") = none ∧
    ((chat (constLlm "Hi") failTr (Json.obj []) [] (some "q") (some "")).trRequests
      = [("", llmText (constLlm "Hi") (Json.obj []) "q")] ∧
    (failTr "" (llmText (constLlm "Hi") (Json.obj []) "q") = none →
      (chat (constLlm "Hi") failTr (Json.obj []) [] (some "q") (some "")).body
          = Json.obj [("response", Json.str (llmText (constLlm "Hi") (Json.obj []) "q"))] ∧
      cacheLookup (chat (constLlm "Hi") failTr (Json.obj [])
          [] (some "q") (some "")).response_cache ("q" ++ "_")
        = some (llmText (constLlm "Hi") (Json.obj []) "q"))) :=
  ⟨by decide, rfl,
   empty_language_field (constLlm "Hi") failTr (Json.obj []) [] "q" (by decide) rfl⟩

end ChatBot
